import Mathlib

/-!
Shallow embedding of the geoip HTTP service (`src/app.py`): the client-IP
resolver, the lookup engine and both HTTP handlers, the database file store
with its temporary-file-plus-rename replacement, and the background refresh
scheduler.  External collaborators (the geoip2 reader capability, the network
fetch, the process clock) are modelled as explicit parameters; everything the
repository's own code does is translated line by line.
-/

namespace GeoIP

/-- File contents, abstractly: a list of bytes. -/
abbrev Bytes := List Nat

/-- A filesystem state: each path either holds contents or does not exist. -/
abbrev FS := String → Option Bytes

/-- `app.py` line 12: the fixed download URL. -/
def DB_URL : String := "https://git.io/GeoLite2-City.mmdb"

/-- `app.py` line 14: local filename of the database. -/
def DB_FILE : String := "GeoLite2-City.mmdb"

/-- `app.py` line 17: refresh period in seconds (one day). -/
def REFRESH_INTERVAL : Nat := 24 * 60 * 60

/-- Python truthiness of `headers.get(name)`: `None` (header absent) and the
empty string are both falsy; any other string is truthy. -/
def truthy : Option String → Bool
  | none => false
  | some s => s != ""

/-- Strip leading and trailing whitespace from a character list, as Python's
`str.strip()` with no argument. -/
def stripChars (l : List Char) : List Char :=
  ((l.dropWhile Char.isWhitespace).reverse.dropWhile Char.isWhitespace).reverse

/-- Python's `s.strip()`: the string without leading/trailing whitespace. -/
def pyStrip (s : String) : String := ⟨stripChars s.data⟩

/-- Python's `s.split(',')[0]`: the characters before the first comma (the
whole string when it has no comma; empty when the string is empty). -/
def beforeComma (s : String) : String := ⟨s.data.takeWhile (fun c => c != ',')⟩

/-- The four proxy headers `get_client_ip` consults, each either present with
a value or absent, plus nothing else the function reads. -/
structure Headers where
  xForwardedFor : Option String
  xRealIP : Option String
  cfConnectingIP : Option String
  xOriginatingIP : Option String
deriving DecidableEq

/-- `app.py` lines 22-43, `get_client_ip`: each header is consulted with
Python truthiness (`if request.headers.get(...)`), X-Forwarded-For is split at
commas and the first entry stripped, the other headers are stripped whole, and
the transport remote address is the fallback. -/
def get_client_ip (h : Headers) (remote_addr : String) : String :=
  if truthy h.xForwardedFor then
    pyStrip (beforeComma (h.xForwardedFor.getD ""))
  else if truthy h.xRealIP then
    pyStrip (h.xRealIP.getD "")
  else if truthy h.cfConnectingIP then
    pyStrip (h.cfConnectingIP.getD "")
  else if truthy h.xOriginatingIP then
    pyStrip (h.xOriginatingIP.getD "")
  else
    remote_addr

/-- The resolver exactly as claim C2 words it: the first PRESENT header wins,
with no regard to whether its value is empty.  This follows the claim text,
for comparison with `get_client_ip` which follows the code. -/
def clientIP_ofClaim (h : Headers) (remote_addr : String) : String :=
  match h.xForwardedFor with
  | some s => pyStrip (beforeComma s)
  | none =>
    match h.xRealIP with
    | some s => pyStrip s
    | none =>
      match h.cfConnectingIP with
      | some s => pyStrip s
      | none =>
        match h.xOriginatingIP with
        | some s => pyStrip s
        | none => remote_addr

/-- An optional header value filtered to present-and-non-empty. -/
def presentNonEmpty : Option String → Option String
  | none => none
  | some s => if s = "" then none else some s

/-- The amended reading of claim C2: the first header that is present WITH A
NON-EMPTY VALUE wins (matching Python truthiness); X-Forwarded-For
contributes its first comma-separated entry trimmed, the others their value
trimmed, and the remote address is the fallback. -/
def clientIP_amended (h : Headers) (remote_addr : String) : String :=
  match presentNonEmpty h.xForwardedFor with
  | some s => pyStrip (beforeComma s)
  | none =>
    match presentNonEmpty h.xRealIP with
    | some s => pyStrip s
    | none =>
      match presentNonEmpty h.cfConnectingIP with
      | some s => pyStrip s
      | none =>
        match presentNonEmpty h.xOriginatingIP with
        | some s => pyStrip s
        | none => remote_addr

/-- Geographic record the opaque geoip2 reader yields for an IP: optional
city and country names, latitude and longitude (numeric). -/
structure GeoInfo where
  city : Option String
  country : Option String
  latitude : ℚ
  longitude : ℚ
deriving DecidableEq

/-- Outcome of the opaque `reader.city(ip)` call on an open database:
a record, `geoip2.errors.AddressNotFoundError`, or any other exception
(malformed IP, corrupt database) carrying its `str(e)` message. -/
inductive CityAnswer where
  | ok (info : GeoInfo)
  | notFound (msg : String)
  | err (msg : String)
deriving DecidableEq

/-- The opaque geoip2 query capability: given database file contents and an
IP string, produce a `CityAnswer`.  Treated as a black box per the spec. -/
abbrev Db := Bytes → String → CityAnswer

/-- Message of the `FileNotFoundError` CPython raises when told to open a
path that does not exist: it embeds the path it was given. -/
def fileNotFoundMsg (path : String) : String :=
  "[Errno 2] No such file or directory: " ++ path

/-- Outcome of `local_ip_lookup` as the handlers see it: a result dict, an
`AddressNotFoundError`, or any other exception with its message. -/
inductive LookupOutcome where
  | ok (info : GeoInfo)
  | addressNotFound (msg : String)
  | exc (msg : String)
deriving DecidableEq

/-- `app.py` lines 45-53, `local_ip_lookup`: open `GeoLite2-City.mmdb`
(raising `FileNotFoundError` when the file does not exist) and query the
opaque reader for the IP. -/
def local_ip_lookup (fs : FS) (db : Db) (ip : String) : LookupOutcome :=
  match fs DB_FILE with
  | none => .exc (fileNotFoundMsg DB_FILE)
  | some content =>
    match db content ip with
    | .ok info => .ok info
    | .notFound m => .addressNotFound m
    | .err m => .exc m

/-- Round-half-to-even on a rational, as Python's `round` ties-to-even. -/
def roundHalfEven (q : ℚ) : ℤ :=
  let f : ℤ := ⌊q⌋
  if q - f < 1 / 2 then f
  else if q - f > 1 / 2 then f + 1
  else if f % 2 = 0 then f else f + 1

/-- Python's `round(x, 2)`: round to two decimal places, ties to even. -/
def pyRound2 (q : ℚ) : ℚ := (roundHalfEven (q * 100) : ℚ) / 100

/-- The `result` object of a successful response: the fields of the dict
built by `local_ip_lookup` plus the keys the handler adds afterwards
(`lookup_time_ms` and, per handler, `client_ip` or `queried_ip`). -/
structure ResultBody where
  city : Option String
  country : Option String
  latitude : ℚ
  longitude : ℚ
  lookup_time_ms : ℚ
  client_ip : Option String
  queried_ip : Option String
deriving DecidableEq

/-- An HTTP response as the handlers build it: status code plus the JSON
envelope's fields, absent keys modelled as `none`. -/
structure HttpResponse where
  status : Nat
  success : Bool
  error : Option String
  result : Option ResultBody
  ip : Option String
  client_ip : Option String
  queried_ip : Option String
deriving DecidableEq

/-- `app.py` lines 55-87, the implicit `/lookup` handler.  `t_start` and
`t_end` are the two `time.time()` readings at lines 59 and 63 (rationals, in
seconds); the lookup and the surrounding handler code happen between them. -/
def lookup_ip (h : Headers) (remote_addr : String) (fs : FS) (db : Db)
    (t_start t_end : ℚ) : HttpResponse :=
  let ip := get_client_ip h remote_addr
  match local_ip_lookup fs db ip with
  | .ok info =>
    { status := 200, success := true, error := none,
      result := some { city := info.city, country := info.country,
                       latitude := info.latitude, longitude := info.longitude,
                       lookup_time_ms := pyRound2 ((t_end - t_start) * 1000),
                       client_ip := some ip, queried_ip := none },
      ip := none, client_ip := none, queried_ip := none }
  | .addressNotFound _ =>
    { status := 404, success := false,
      error := some "IP address not found in database",
      result := none, ip := some ip,
      client_ip := some (get_client_ip h remote_addr), queried_ip := none }
  | .exc m =>
    { status := 500, success := false, error := some m,
      result := none, ip := some ip,
      client_ip := some (get_client_ip h remote_addr), queried_ip := none }

/-- The fixed 400 response of the explicit handler when no usable `ip`
query-parameter value is supplied (`app.py` lines 97-101). -/
def usageResponse : HttpResponse :=
  { status := 400, success := false,
    error := some "IP parameter is required. Usage: /lookup_ip?ip=x.x.x.x",
    result := none, ip := none, client_ip := none, queried_ip := none }

/-- `app.py` lines 89-126, the explicit `/lookup_ip` handler.  `ipArg` is
`request.args.get('ip')` (absent query parameter gives `none`); the guard is
Python's `if not ip`, i.e. truthiness.  `t_start`, `t_end` are the
`time.time()` readings at lines 93 and 104. -/
def lookup_ip_parameter (ipArg : Option String) (fs : FS) (db : Db)
    (t_start t_end : ℚ) : HttpResponse :=
  if truthy ipArg = false then usageResponse
  else
    let ip := ipArg.getD ""
    match local_ip_lookup fs db ip with
    | .ok info =>
      { status := 200, success := true, error := none,
        result := some { city := info.city, country := info.country,
                         latitude := info.latitude, longitude := info.longitude,
                         lookup_time_ms := pyRound2 ((t_end - t_start) * 1000),
                         client_ip := none, queried_ip := some ip },
        ip := none, client_ip := none, queried_ip := none }
    | .addressNotFound _ =>
      { status := 404, success := false,
        error := some "IP address not found in database",
        result := none, ip := some ip, client_ip := none, queried_ip := none }
    | .exc m =>
      { status := 500, success := false, error := some m,
        result := none, ip := some ip, client_ip := none, queried_ip := none }

/-- Write a file: afterwards the path holds the given contents, other paths
are unchanged. -/
def fsSet (fs : FS) (p : String) (b : Bytes) : FS :=
  fun q => if q = p then some b else fs q

/-- Delete a file: afterwards the path does not exist, other paths are
unchanged. -/
def fsRemove (fs : FS) (p : String) : FS :=
  fun q => if q = p then none else fs q

/-- `os.replace(src, dst)`: one atomic rename of `src` over `dst`, a single
indivisible filesystem transition.  (With `src` missing it raises; the store
step below only calls it right after writing `src`.) -/
def osReplace (fs : FS) (src dst : String) : FS :=
  match fs src with
  | some b => fsRemove (fsSet fs dst b) src
  | none => fs

/-- `app.py` line 139: the temporary path, the canonical filename plus a
`.tmp` suffix. -/
def tmp_path : String := DB_FILE ++ ".tmp"

/-- Directory part of a path, as `os.path.dirname`: everything before the
last slash (empty for a bare filename, meaning the working directory). -/
def dirOf (p : String) : String :=
  ⟨((p.data.reverse.dropWhile (fun c => c != '/')).drop 1).reverse⟩

/-- How the `open(tmp_path, "wb"); f.write(...)` pair can go: it succeeds;
the open succeeds but the write fails (disk full) leaving whatever bytes were
flushed in the temporary file; or the open itself fails (permission).  The
failing cases carry the exception message. -/
inductive WriteOutcome where
  | success
  | writeFail (leftover : Bytes) (msg : String)
  | openFail (msg : String)
deriving DecidableEq

/-- `app.py` lines 139-144, the store step of `download_latest_db`: write
the downloaded content to `tmp_path`, then one `os.replace` of `tmp_path`
over `DB_FILE`.  Returns the new filesystem and, on failure, the exception
message (the surrounding `except` catches it). -/
def storeStep (fs : FS) (content : Bytes) (w : WriteOutcome) :
    FS × Option String :=
  match w with
  | .success => (osReplace (fsSet fs tmp_path content) tmp_path DB_FILE, none)
  | .writeFail leftover msg => (fsSet fs tmp_path leftover, some msg)
  | .openFail msg => (fs, some msg)

/-- Outcome of `requests.get(DB_URL, timeout=3600)` followed by
`raise_for_status()`: the body bytes, or an exception message (transport
failure, timeout, non-success status). -/
inductive FetchResult where
  | ok (content : Bytes)
  | fetchError (msg : String)
deriving DecidableEq

/-- The `print` line opening a refresh cycle (`app.py` line 135). -/
def startLog (now : String) : String :=
  "[" ++ now ++ "] Downloading latest GeoLite2 database..."

/-- The `print` line of a successful refresh (`app.py` line 145). -/
def okLog (now : String) : String :=
  "[" ++ now ++ "] Database updated successfully."

/-- The `print` line of a failed refresh (`app.py` line 148): a timestamp
and the exception message. -/
def failLog (now msg : String) : String :=
  "[" ++ now ++ "] Failed to update GeoLite2 database: " ++ msg

/-- `app.py` lines 132-148, `download_latest_db`: fetch, store via
`storeStep`, and catch every exception of either stage, logging it with a
timestamp.  `now` is `datetime.utcnow().isoformat()` for the cycle.  The
function is total: no failure propagates out of it. -/
def download_latest_db (now : String) (fetch : FetchResult)
    (w : WriteOutcome) (fs : FS) : FS × List String :=
  match fetch with
  | .fetchError msg => (fs, [startLog now, failLog now msg])
  | .ok content =>
    match storeStep fs content w with
    | (fs2, none) => (fs2, [startLog now, okLog now])
    | (fs2, some msg) => (fs2, [startLog now, failLog now msg])

/-- Whether a refresh cycle with these fetch and write outcomes fails at
either stage. -/
def cycleFailed (fetch : FetchResult) (w : WriteOutcome) : Bool :=
  match fetch with
  | .fetchError _ => true
  | .ok _ =>
    match w with
    | .success => false
    | _ => true

/-- The exception message of a failed cycle: the fetch error when the fetch
failed, otherwise the write error. -/
def causeOf (fetch : FetchResult) (w : WriteOutcome) : String :=
  match fetch with
  | .fetchError m => m
  | .ok _ =>
    match w with
    | .success => ""
    | .writeFail _ m => m
    | .openFail m => m

/-- Environment of one refresh cycle: its timestamp string and the outcomes
the external world hands to the fetch and write calls. -/
structure CycleInput where
  now : String
  fetch : FetchResult
  write : WriteOutcome
deriving DecidableEq

/-- The first `n` cycles of the scheduler body run in order against a
starting filesystem: each cycle is one `download_latest_db` call, and the
per-cycle log lists are collected.  Totality of this function mirrors the
loop never being killed by a cycle failure. -/
def runCycles (inp : Nat → CycleInput) (fs : FS) : Nat → FS × List (List String)
  | 0 => (fs, [])
  | n + 1 =>
    let prev := runCycles inp fs n
    let step := download_latest_db (inp n).now (inp n).fetch (inp n).write prev.1
    (step.1, prev.2 ++ [step.2])

/-- Events of the scheduler thread `_run` (`app.py` lines 154-159), in
order: it downloads once immediately, then forever alternates a sleep of
`REFRESH_INTERVAL` seconds with a download. -/
inductive SchedEv where
  | run
  | sleep (secs : Nat)
deriving DecidableEq

/-- The event trace of `_run` through its first `n` loop iterations: the
immediate startup download, then `n` repetitions of sleep-then-download. -/
def schedTrace : Nat → List SchedEv
  | 0 => [.run]
  | n + 1 => schedTrace n ++ [.sleep REFRESH_INTERVAL, .run]

/-- Number of download runs in a scheduler trace. -/
def countRuns (l : List SchedEv) : Nat :=
  l.countP fun e => match e with | .run => true | _ => false

/-- Start time (seconds) of cycle `k` when the process starts at `t0` and
cycle `i` takes `dur i` seconds: the first cycle starts immediately, and each
later cycle starts after the previous cycle finished and a full
`REFRESH_INTERVAL` sleep elapsed. -/
def cycleStart (t0 : Nat) (dur : Nat → Nat) : Nat → Nat
  | 0 => t0
  | k + 1 => cycleStart t0 dur k + dur k + REFRESH_INTERVAL

/-- Whether the second character list starts with the first. -/
def listStartsWith : List Char → List Char → Bool
  | [], _ => true
  | _ :: _, [] => false
  | a :: as, b :: bs => a == b && listStartsWith as bs

/-- Whether `needle` occurs as a contiguous run inside `hay`. -/
def listOccursIn (needle : List Char) : List Char → Bool
  | [] => needle.isEmpty
  | c :: rest => listStartsWith needle (c :: rest) || listOccursIn needle rest

/-- Python's `needle in hay`: substring occurrence. -/
def strContains (hay needle : String) : Bool :=
  listOccursIn needle.data hay.data

section Helpers

/-- A list starts with itself followed by anything. -/
lemma listStartsWith_self_append (l b : List Char) :
    listStartsWith l (l ++ b) = true := by
  induction l with
  | nil => rfl
  | cons c cs ih => simp [listStartsWith, ih]

/-- A needle that the haystack starts with occurs in the haystack. -/
lemma listOccursIn_of_startsWith {n h : List Char}
    (hs : listStartsWith n h = true) : listOccursIn n h = true := by
  cases h with
  | nil =>
    cases n with
    | nil => rfl
    | cons c cs => simp [listStartsWith] at hs
  | cons c cs => simp [listOccursIn, hs]

/-- Occurrence survives prepending material to the haystack. -/
lemma listOccursIn_append_left (a : List Char) {n h : List Char}
    (ho : listOccursIn n h = true) : listOccursIn n (a ++ h) = true := by
  induction a with
  | nil => simpa using ho
  | cons c cs ih => simp [listOccursIn, ih]

/-- A string occurs in any string of the shape `a ++ m ++ b`. -/
lemma strContains_append (a m b : String) :
    strContains (a ++ m ++ b) m = true := by
  show listOccursIn m.data (a ++ m ++ b).data = true
  have hdata : (a ++ m ++ b).data = a.data ++ (m.data ++ b.data) := by
    simp [String.data_append]
  rw [hdata]
  exact listOccursIn_append_left a.data
    (listOccursIn_of_startsWith (listStartsWith_self_append m.data b.data))

/-- A string occurs in any string of the shape `a ++ m`. -/
lemma strContains_append_right (a m : String) :
    strContains (a ++ m) m = true := by
  have h := strContains_append a m ""
  simpa using h

/-- The rounding of a non-negative rational is non-negative. -/
lemma roundHalfEven_nonneg {q : ℚ} (hq : 0 ≤ q) : 0 ≤ roundHalfEven q := by
  unfold roundHalfEven
  have hf : (0 : ℤ) ≤ ⌊q⌋ := Int.floor_nonneg.mpr hq
  simp only []
  split_ifs <;> omega

/-- Python rounding to two decimals preserves non-negativity. -/
lemma pyRound2_nonneg {q : ℚ} (hq : 0 ≤ q) : 0 ≤ pyRound2 q := by
  unfold pyRound2
  have h1 : (0 : ℤ) ≤ roundHalfEven (q * 100) :=
    roundHalfEven_nonneg (mul_nonneg hq (by norm_num))
  have h2 : (0 : ℚ) ≤ (roundHalfEven (q * 100) : ℚ) := by exact_mod_cast h1
  exact div_nonneg h2 (by norm_num)

end Helpers

/-- C2 counterexample: with `X-Forwarded-For` present but empty and
`X-Real-IP` present, the code skips the empty header (Python truthiness) and
answers from `X-Real-IP`, while the claim's first-present-header-wins rule
demands the empty string from `X-Forwarded-For`. -/
theorem client_ip_first_present_refuted :
    get_client_ip ⟨some "", some "9.9.9.9", none, none⟩ "7.7.7.7" = "9.9.9.9" ∧
    clientIP_ofClaim ⟨some "", some "9.9.9.9", none, none⟩ "7.7.7.7" = "" ∧
    get_client_ip ⟨some "", some "9.9.9.9", none, none⟩ "7.7.7.7" ≠
      clientIP_ofClaim ⟨some "", some "9.9.9.9", none, none⟩ "7.7.7.7" := by
  refine ⟨by decide, by decide, by decide⟩

/-- C2 (amended): the resolver follows the header precedence order with the
first present AND NON-EMPTY header winning — X-Forwarded-For contributes its
first comma-separated entry trimmed, the others their trimmed value, with the
transport remote address as fallback; in particular the claim's two examples
hold. -/
theorem client_ip_precedence_amended :
    (∀ h r, get_client_ip h r = clientIP_amended h r) ∧
    get_client_ip ⟨some "1.2.3.4, 5.6.7.8", some "9.9.9.9", none, none⟩
      "0.0.0.0" = "1.2.3.4" ∧
    get_client_ip ⟨none, none, none, none⟩ "203.0.113.9" = "203.0.113.9" := by
  refine ⟨?_, by decide, by decide⟩
  intro h r
  obtain ⟨xf, xr, cf, xo⟩ := h
  simp only [get_client_ip, clientIP_amended, truthy, presentNonEmpty]
  cases xf <;> cases xr <;> cases cf <;> cases xo <;>
    simp only [Option.getD] <;> split_ifs <;> simp_all [bne_iff_ne]

/-- C6: an explicit-lookup request with no `ip` value returns the fixed 400
usage response, independently of the filesystem, the database capability and
the clock — so the lookup engine is never consulted. -/
theorem missing_ip_param_400 :
    (∀ fs db t1 t2, lookup_ip_parameter none fs db t1 t2 = usageResponse) ∧
    (∀ fs1 db1 t1 t2 fs2 db2 t3 t4,
      lookup_ip_parameter none fs1 db1 t1 t2 =
        lookup_ip_parameter none fs2 db2 t3 t4) ∧
    usageResponse.status = 400 ∧
    usageResponse.error =
      some "IP parameter is required. Usage: /lookup_ip?ip=x.x.x.x" := by
  exact ⟨fun _ _ _ _ => rfl, fun _ _ _ _ _ _ _ _ => rfl, rfl, rfl⟩

/-- C10: an explicit-lookup request whose `ip` parameter is the empty string
is handled exactly like an absent parameter (`if not ip` catches both): the
fixed 400 usage response, independent of filesystem, database and clock. -/
theorem empty_ip_param_as_missing :
    (∀ fs db t1 t2,
      lookup_ip_parameter (some "") fs db t1 t2 =
        lookup_ip_parameter none fs db t1 t2) ∧
    (∀ fs db t1 t2, lookup_ip_parameter (some "") fs db t1 t2 = usageResponse) ∧
    (∀ fs1 db1 t1 t2 fs2 db2 t3 t4,
      lookup_ip_parameter (some "") fs1 db1 t1 t2 =
        lookup_ip_parameter (some "") fs2 db2 t3 t4) ∧
    usageResponse.status = 400 := by
  exact ⟨fun _ _ _ _ => rfl, fun _ _ _ _ => rfl, fun _ _ _ _ _ _ _ _ => rfl, rfl⟩

/-- C4: whenever the lookup raises a QueryError (any exception other than
address-not-found, e.g. a malformed IP or the database file not existing
yet), either handler returns HTTP 500 with `success: false` and an error
message — the handler itself never fails. -/
theorem query_error_maps_to_500 :
    (∀ h r fs db t1 t2 m,
      local_ip_lookup fs db (get_client_ip h r) = .exc m →
      (lookup_ip h r fs db t1 t2).status = 500 ∧
      (lookup_ip h r fs db t1 t2).success = false ∧
      (lookup_ip h r fs db t1 t2).error = some m) ∧
    (∀ ipArg fs db t1 t2 m,
      truthy ipArg = true →
      local_ip_lookup fs db (ipArg.getD "") = .exc m →
      (lookup_ip_parameter ipArg fs db t1 t2).status = 500 ∧
      (lookup_ip_parameter ipArg fs db t1 t2).success = false ∧
      (lookup_ip_parameter ipArg fs db t1 t2).error = some m) ∧
    (∀ fs db ip, fs DB_FILE = none →
      local_ip_lookup fs db ip = .exc (fileNotFoundMsg DB_FILE)) := by
  refine ⟨?_, ?_, ?_⟩
  · intro h r fs db t1 t2 m hm
    simp [lookup_ip, hm]
  · intro ipArg fs db t1 t2 m ht hm
    simp [lookup_ip_parameter, ht, hm]
  · intro fs db ip hfs
    simp only [local_ip_lookup, hfs]

/-- C4 witness: with no database file on disk, the implicit handler answers
500 with `success: false`; with a reader that rejects the IP string, the
explicit handler does the same. -/
theorem query_error_maps_to_500_witness :
    local_ip_lookup (fun _ => none) (fun _ _ => .err "boom")
      (get_client_ip ⟨none, none, none, none⟩ "1.2.3.4") =
      .exc (fileNotFoundMsg DB_FILE) ∧
    (lookup_ip ⟨none, none, none, none⟩ "1.2.3.4" (fun _ => none)
      (fun _ _ => .err "boom") 0 0).status = 500 ∧
    (lookup_ip ⟨none, none, none, none⟩ "1.2.3.4" (fun _ => none)
      (fun _ _ => .err "boom") 0 0).success = false ∧
    truthy (some "not-an-ip") = true ∧
    local_ip_lookup (fun p => if p = DB_FILE then some [0] else none)
      (fun _ _ => .err "not-an-ip does not appear to be an IPv4 or IPv6 address")
      ((some "not-an-ip").getD "") =
      .exc "not-an-ip does not appear to be an IPv4 or IPv6 address" ∧
    (lookup_ip_parameter (some "not-an-ip")
      (fun p => if p = DB_FILE then some [0] else none)
      (fun _ _ => .err "not-an-ip does not appear to be an IPv4 or IPv6 address")
      0 0).status = 500 := by
  refine ⟨rfl, ?_, ?_, rfl, rfl, ?_⟩
  · exact (query_error_maps_to_500.1 ⟨none, none, none, none⟩ "1.2.3.4"
      (fun _ => none) (fun _ _ => .err "boom") 0 0 (fileNotFoundMsg DB_FILE) rfl).1
  · exact (query_error_maps_to_500.1 ⟨none, none, none, none⟩ "1.2.3.4"
      (fun _ => none) (fun _ _ => .err "boom") 0 0 (fileNotFoundMsg DB_FILE) rfl).2.1
  · exact (query_error_maps_to_500.2.1 (some "not-an-ip")
      (fun p => if p = DB_FILE then some [0] else none)
      (fun _ _ => .err "not-an-ip does not appear to be an IPv4 or IPv6 address")
      0 0 "not-an-ip does not appear to be an IPv4 or IPv6 address" rfl rfl).1

/-- C5: whenever the lookup reports address-not-found, either handler
returns HTTP 404 with `success: false`, and the implicit handler's envelope
carries the resolved client IP. -/
theorem not_found_maps_to_404 :
    (∀ h r fs db t1 t2 m,
      local_ip_lookup fs db (get_client_ip h r) = .addressNotFound m →
      (lookup_ip h r fs db t1 t2).status = 404 ∧
      (lookup_ip h r fs db t1 t2).success = false ∧
      (lookup_ip h r fs db t1 t2).client_ip = some (get_client_ip h r) ∧
      (lookup_ip h r fs db t1 t2).ip = some (get_client_ip h r)) ∧
    (∀ ipArg fs db t1 t2 m,
      truthy ipArg = true →
      local_ip_lookup fs db (ipArg.getD "") = .addressNotFound m →
      (lookup_ip_parameter ipArg fs db t1 t2).status = 404 ∧
      (lookup_ip_parameter ipArg fs db t1 t2).success = false) := by
  refine ⟨?_, ?_⟩
  · intro h r fs db t1 t2 m hm
    simp [lookup_ip, hm]
  · intro ipArg fs db t1 t2 m ht hm
    simp [lookup_ip_parameter, ht, hm]

/-- C5 witness: a database that knows no address yields 404 with
`success: false` from both handlers, and the implicit envelope carries the
resolved client IP. -/
theorem not_found_maps_to_404_witness :
    local_ip_lookup (fun p => if p = DB_FILE then some [0] else none)
      (fun _ _ => .notFound "not in db")
      (get_client_ip ⟨none, none, none, none⟩ "198.51.100.7") =
      .addressNotFound "not in db" ∧
    (lookup_ip ⟨none, none, none, none⟩ "198.51.100.7"
      (fun p => if p = DB_FILE then some [0] else none)
      (fun _ _ => .notFound "not in db") 0 0).status = 404 ∧
    (lookup_ip ⟨none, none, none, none⟩ "198.51.100.7"
      (fun p => if p = DB_FILE then some [0] else none)
      (fun _ _ => .notFound "not in db") 0 0).client_ip = some "198.51.100.7" ∧
    truthy (some "198.51.100.7") = true ∧
    (lookup_ip_parameter (some "198.51.100.7")
      (fun p => if p = DB_FILE then some [0] else none)
      (fun _ _ => .notFound "not in db") 0 0).status = 404 := by
  refine ⟨rfl, ?_, ?_, rfl, ?_⟩
  · exact (not_found_maps_to_404.1 ⟨none, none, none, none⟩ "198.51.100.7"
      (fun p => if p = DB_FILE then some [0] else none)
      (fun _ _ => .notFound "not in db") 0 0 "not in db" rfl).1
  · exact (not_found_maps_to_404.1 ⟨none, none, none, none⟩ "198.51.100.7"
      (fun p => if p = DB_FILE then some [0] else none)
      (fun _ _ => .notFound "not in db") 0 0 "not in db" rfl).2.2.1
  · exact (not_found_maps_to_404.2 (some "198.51.100.7")
      (fun p => if p = DB_FILE then some [0] else none)
      (fun _ _ => .notFound "not in db") 0 0 "not in db" rfl rfl).1

/-- Sample success payload used to instantiate the timing theorem: the body
the implicit handler builds for an all-absent-headers request against a
reader that answers with an empty record, with clock readings 0 and 1. -/
def sampleOkBody : ResultBody :=
  { city := none, country := none, latitude := 0, longitude := 0,
    lookup_time_ms := pyRound2 ((1 - 0) * 1000),
    client_ip := some "1.1.1.1", queried_ip := none }

/-- C8: a successful response (the only kind carrying a `result`) reports
`lookup_time_ms` as the interval between the handler's two clock readings,
in milliseconds rounded to two decimal places, and — provided the clock did
not step backwards between the readings — that number is non-negative. -/
theorem lookup_time_ms_correct :
    (∀ h r fs db t1 t2 rb, t1 ≤ t2 →
      (lookup_ip h r fs db t1 t2).result = some rb →
      rb.lookup_time_ms = pyRound2 ((t2 - t1) * 1000) ∧
      0 ≤ rb.lookup_time_ms) ∧
    (∀ ipArg fs db t1 t2 rb, t1 ≤ t2 →
      (lookup_ip_parameter ipArg fs db t1 t2).result = some rb →
      rb.lookup_time_ms = pyRound2 ((t2 - t1) * 1000) ∧
      0 ≤ rb.lookup_time_ms) ∧
    (∀ h r fs db t1 t2,
      (lookup_ip h r fs db t1 t2).success = true ↔
      ((lookup_ip h r fs db t1 t2).result).isSome = true) ∧
    (∀ ipArg fs db t1 t2,
      (lookup_ip_parameter ipArg fs db t1 t2).success = true ↔
      ((lookup_ip_parameter ipArg fs db t1 t2).result).isSome = true) := by
  have hnn : ∀ t1 t2 : ℚ, t1 ≤ t2 → 0 ≤ pyRound2 ((t2 - t1) * 1000) := by
    intro t1 t2 hle
    exact pyRound2_nonneg (mul_nonneg (by linarith) (by norm_num))
  refine ⟨?_, ?_, ?_, ?_⟩
  · intro h r fs db t1 t2 rb hle hrb
    cases hl : local_ip_lookup fs db (get_client_ip h r) <;>
      simp only [lookup_ip, hl] at hrb <;> cases hrb
    exact ⟨rfl, hnn t1 t2 hle⟩
  · intro ipArg fs db t1 t2 rb hle hrb
    by_cases ht : truthy ipArg = false
    · simp only [lookup_ip_parameter, ht, if_pos rfl] at hrb
      cases hrb
    · cases hl : local_ip_lookup fs db (ipArg.getD "") <;>
        simp only [lookup_ip_parameter, ht, if_neg, hl, reduceIte] at hrb <;>
        cases hrb
      exact ⟨rfl, hnn t1 t2 hle⟩
  · intro h r fs db t1 t2
    cases hl : local_ip_lookup fs db (get_client_ip h r) <;>
      simp [lookup_ip, hl]
  · intro ipArg fs db t1 t2
    by_cases ht : truthy ipArg = false
    · simp [lookup_ip_parameter, ht, usageResponse]
    · cases hl : local_ip_lookup fs db (ipArg.getD "") <;>
        simp [lookup_ip_parameter, ht, hl]

/-- C8 witness: for a concrete successful implicit lookup with clock
readings 0 and 1 the reported time is the rounded interval and is
non-negative. -/
theorem lookup_time_ms_correct_witness :
    (0 : ℚ) ≤ 1 ∧
    (lookup_ip ⟨none, none, none, none⟩ "1.1.1.1"
      (fun p => if p = DB_FILE then some [0] else none)
      (fun _ _ => .ok ⟨none, none, 0, 0⟩) 0 1).result = some sampleOkBody ∧
    sampleOkBody.lookup_time_ms = pyRound2 ((1 - 0) * 1000) ∧
    0 ≤ sampleOkBody.lookup_time_ms := by
  refine ⟨by norm_num, rfl, ?_, ?_⟩
  · exact (lookup_time_ms_correct.1 ⟨none, none, none, none⟩ "1.1.1.1"
      (fun p => if p = DB_FILE then some [0] else none)
      (fun _ _ => .ok ⟨none, none, 0, 0⟩) 0 1 sampleOkBody (by norm_num) rfl).1
  · exact (lookup_time_ms_correct.1 ⟨none, none, none, none⟩ "1.1.1.1"
      (fun p => if p = DB_FILE then some [0] else none)
      (fun _ _ => .ok ⟨none, none, 0, 0⟩) 0 1 sampleOkBody (by norm_num) rfl).2

/-- C1: the store step writes the downloaded content to `DB_FILE ++ ".tmp"`,
a path in the same directory as the canonical file, and installs it with one
`os.replace` rename; on success the canonical path holds exactly the new
content and the temporary file is gone, while any write failure leaves the
canonical file's content untouched. -/
theorem db_replace_atomic :
    dirOf tmp_path = dirOf DB_FILE ∧
    (∀ fs content, storeStep fs content .success =
      (osReplace (fsSet fs tmp_path content) tmp_path DB_FILE, none)) ∧
    (∀ fs content, (storeStep fs content .success).1 DB_FILE = some content ∧
      (storeStep fs content .success).1 tmp_path = none) ∧
    (∀ fs content w, (storeStep fs content w).2.isSome = true →
      (storeStep fs content w).1 DB_FILE = fs DB_FILE) := by
  refine ⟨by decide, fun _ _ => rfl, ?_, ?_⟩
  · intro fs content
    refine ⟨?_, ?_⟩ <;> · simp [storeStep, osReplace, fsSet, fsRemove]; try decide
  · intro fs content w
    cases w with
    | success => intro hw; cases hw
    | writeFail leftover msg =>
      intro _
      show fsSet fs tmp_path leftover DB_FILE = fs DB_FILE
      simp only [fsSet, if_neg (by decide : ¬DB_FILE = tmp_path)]
    | openFail msg => intro _; rfl

/-- C1 witness: a failing write (disk full after zero bytes) reports failure
and leaves the canonical file exactly as it was. -/
theorem db_replace_atomic_witness :
    ((storeStep (fun p => if p = DB_FILE then some [9] else none) [1, 2]
      (.writeFail [] "No space left on device")).2).isSome = true ∧
    (storeStep (fun p => if p = DB_FILE then some [9] else none) [1, 2]
      (.writeFail [] "No space left on device")).1 DB_FILE =
      (fun p => if p = DB_FILE then some [9] else none : FS) DB_FILE := by
  exact ⟨rfl, db_replace_atomic.2.2.2
    (fun p => if p = DB_FILE then some [9] else none) [1, 2]
    (.writeFail [] "No space left on device") rfl⟩

/-- C3: a refresh cycle that fails at the fetch or the store stage leaves the
canonical database file unchanged and logs a line carrying the cycle's
timestamp and the failure cause; `download_latest_db` is total, so the
failure never escapes the cycle, and the scheduler body runs every one of its
`n` cycles (one log list per cycle) no matter which cycles fail. -/
theorem refresh_failure_isolated :
    (∀ now fetch w fs, cycleFailed fetch w = true →
      (download_latest_db now fetch w fs).1 DB_FILE = fs DB_FILE ∧
      failLog now (causeOf fetch w) ∈ (download_latest_db now fetch w fs).2) ∧
    (∀ now msg, strContains (failLog now msg) now = true ∧
      strContains (failLog now msg) msg = true) ∧
    (∀ inp fs n, ((runCycles inp fs n).2).length = n) := by
  refine ⟨?_, ?_, ?_⟩
  · intro now fetch w fs hfail
    cases fetch with
    | fetchError m => exact ⟨rfl, by simp [download_latest_db, failLog, causeOf]⟩
    | ok content =>
      cases w with
      | success => simp [cycleFailed] at hfail
      | writeFail leftover msg =>
        constructor
        · show fsSet fs tmp_path leftover DB_FILE = fs DB_FILE
          simp only [fsSet, if_neg (by decide : ¬DB_FILE = tmp_path)]
        · simp [download_latest_db, storeStep, failLog, causeOf]
      | openFail msg =>
        exact ⟨rfl, by simp [download_latest_db, storeStep, failLog, causeOf]⟩
  · intro now msg
    constructor
    · have h := strContains_append "[" now
        ("] Failed to update GeoLite2 database: " ++ msg)
      simpa [failLog, String.append_assoc] using h
    · have h := strContains_append_right
        ("[" ++ now ++ "] Failed to update GeoLite2 database: ") msg
      simpa [failLog, String.append_assoc] using h
  · intro inp fs n
    induction n with
    | zero => rfl
    | succ k ih => simp [runCycles, ih]

/-- C3 witness: a cycle whose fetch times out leaves the database file in
place and logs the timestamped failure line. -/
theorem refresh_failure_isolated_witness :
    cycleFailed (.fetchError "connection timed out") .success = true ∧
    (download_latest_db "2026-02-03T04:05:06" (.fetchError "connection timed out")
      .success (fun p => if p = DB_FILE then some [9] else none)).1 DB_FILE =
      (fun p => if p = DB_FILE then some [9] else none : FS) DB_FILE ∧
    failLog "2026-02-03T04:05:06"
        (causeOf (.fetchError "connection timed out") .success) ∈
      (download_latest_db "2026-02-03T04:05:06"
        (.fetchError "connection timed out") .success
        (fun p => if p = DB_FILE then some [9] else none)).2 := by
  refine ⟨rfl, ?_, ?_⟩
  · exact (refresh_failure_isolated.1 "2026-02-03T04:05:06"
      (.fetchError "connection timed out") .success
      (fun p => if p = DB_FILE then some [9] else none) rfl).1
  · exact (refresh_failure_isolated.1 "2026-02-03T04:05:06"
      (.fetchError "connection timed out") .success
      (fun p => if p = DB_FILE then some [9] else none) rfl).2

/-- C7: the scheduler's event trace is one immediate download followed by
`n` repetitions of a `REFRESH_INTERVAL` sleep then a download, so the first
event is a run, the first `n` loop iterations hold `n + 1` runs, the
interval is 24 hours in seconds, and consecutive cycle start times are at
least `REFRESH_INTERVAL` apart whatever each cycle's own duration is. -/
theorem scheduler_period :
    REFRESH_INTERVAL = 24 * 60 * 60 ∧
    (∀ n, schedTrace n = SchedEv.run ::
      (List.replicate n [SchedEv.sleep REFRESH_INTERVAL, SchedEv.run]).flatten) ∧
    (∀ n, (schedTrace n).head? = some SchedEv.run) ∧
    (∀ n, countRuns (schedTrace n) = n + 1) ∧
    (∀ t0 dur, cycleStart t0 dur 0 = t0) ∧
    (∀ t0 dur k,
      cycleStart t0 dur k + REFRESH_INTERVAL ≤ cycleStart t0 dur (k + 1)) := by
  have hform : ∀ n, schedTrace n = SchedEv.run ::
      (List.replicate n [SchedEv.sleep REFRESH_INTERVAL, SchedEv.run]).flatten := by
    intro n
    induction n with
    | zero => rfl
    | succ k ih =>
      rw [schedTrace, ih, List.replicate_succ']
      simp
  refine ⟨rfl, hform, ?_, ?_, fun _ _ => rfl, ?_⟩
  · intro n
    rw [hform n]
    rfl
  · intro n
    induction n with
    | zero => rfl
    | succ k ih =>
      rw [schedTrace]
      unfold countRuns at ih ⊢
      rw [List.countP_append, ih]
      rfl
  · intro t0 dur k
    show cycleStart t0 dur k + REFRESH_INTERVAL ≤
      cycleStart t0 dur k + dur k + REFRESH_INTERVAL
    omega

/-- C9 counterexample: with the database file absent, the explicit handler's
500 envelope carries the raw `FileNotFoundError` message, which contains the
database file path — the path does leak to the client. -/
theorem error_path_leak_counterexample :
    (lookup_ip_parameter (some "8.8.8.8") (fun _ => none)
      (fun _ _ => .err "x") 0 0).status = 500 ∧
    (lookup_ip_parameter (some "8.8.8.8") (fun _ => none)
      (fun _ _ => .err "x") 0 0).error = some (fileNotFoundMsg DB_FILE) ∧
    strContains (((lookup_ip_parameter (some "8.8.8.8") (fun _ => none)
      (fun _ _ => .err "x") 0 0).error).getD "") DB_FILE = true := by
  exact ⟨rfl, rfl, by decide⟩

/-- C9 (amended): the 500 envelope surfaces the exception's message
verbatim, so any internal path inside the message reaches the caller; in
particular a missing database file produces a message that contains the
database file path. -/
theorem error_message_verbatim :
    (∀ h r fs db t1 t2 m,
      local_ip_lookup fs db (get_client_ip h r) = .exc m →
      (lookup_ip h r fs db t1 t2).error = some m) ∧
    (∀ ipArg fs db t1 t2 m,
      truthy ipArg = true →
      local_ip_lookup fs db (ipArg.getD "") = .exc m →
      (lookup_ip_parameter ipArg fs db t1 t2).error = some m) ∧
    (∀ fs db ip, fs DB_FILE = none →
      local_ip_lookup fs db ip = .exc (fileNotFoundMsg DB_FILE)) ∧
    (∀ p, strContains (fileNotFoundMsg p) p = true) := by
  refine ⟨?_, ?_, ?_, ?_⟩
  · intro h r fs db t1 t2 m hm
    simp [lookup_ip, hm]
  · intro ipArg fs db t1 t2 m ht hm
    simp [lookup_ip_parameter, ht, hm]
  · intro fs db ip hfs
    simp only [local_ip_lookup, hfs]
  · intro p
    exact strContains_append_right "[Errno 2] No such file or directory: " p

/-- C9 amended-claim witness: a concrete request against a missing database
file yields a 500 envelope whose error string is the raw message embedding
the database path. -/
theorem error_message_verbatim_witness :
    truthy (some "8.8.8.8") = true ∧
    local_ip_lookup (fun _ => none) (fun _ _ => .err "x")
      ((some "8.8.8.8").getD "") = .exc (fileNotFoundMsg DB_FILE) ∧
    (lookup_ip_parameter (some "8.8.8.8") (fun _ => none)
      (fun _ _ => .err "x") 0 0).error = some (fileNotFoundMsg DB_FILE) ∧
    strContains (fileNotFoundMsg DB_FILE) DB_FILE = true := by
  refine ⟨rfl, rfl, ?_, ?_⟩
  · exact error_message_verbatim.2.1 (some "8.8.8.8") (fun _ => none)
      (fun _ _ => .err "x") 0 0 (fileNotFoundMsg DB_FILE) rfl rfl
  · exact error_message_verbatim.2.2.2 DB_FILE

end GeoIP
